import Mathlib

/-!
Verification of the retrieval-augmented question-answering engine
(`rag_service/rag_core.py` and `rag_service/app.py`) against its
natural-language specification.

The development is a shallow embedding: Python functions become Lean
functions over explicit data models.  Python dicts returned by `query`
become a `QueryResult` structure whose `Option` fields model the presence
or absence of dict keys; the ChromaDB collection becomes an ordered list
of index entries (`Option` = the collection does not exist); exceptions
of modelled code become explicit result values, exactly as the source
converts them with its `try/except` blocks; external collaborators
(the `sklearn` fit, the Ollama generator, file contents) are parameters.
Real-valued vector components and scores are modelled by `Rat`.
Side effects that the claims speak about (embedding, retrieval,
generation, index reset, re-ingestion) are made visible as explicit
operation traces returned alongside the results.
-/

/-! ## String utilities

Python's `str.strip()`, `str.lower()`, the substring test `a in b`
and `"sep".join(xs)`, modelled over the character lists underlying
Lean strings (kept kernel-reduction friendly on CJK text). -/

/-- Characters removed by Python `str.strip()` (whitespace). -/
def stripChars (l : List Char) : List Char :=
  ((l.dropWhile Char.isWhitespace).reverse.dropWhile Char.isWhitespace).reverse

/-- Python `s.strip()`. -/
def stripStr (s : String) : String := ⟨stripChars s.data⟩

/-- Python `s.lower()` (character-wise; CJK characters are unaffected). -/
def lowerStr (s : String) : String := ⟨s.data.map Char.toLower⟩

/-- `leadsWith pat l` : `pat` is an initial segment of `l`. -/
def leadsWith : List Char → List Char → Bool
  | [], _ => true
  | _ :: _, [] => false
  | p :: ps, c :: cs => p == c && leadsWith ps cs

/-- `occursIn pat l` : `pat` occurs contiguously inside `l`
(Python `pat in l` on strings). -/
def occursIn (pat : List Char) : List Char → Bool
  | [] => leadsWith pat []
  | c :: cs => leadsWith pat (c :: cs) || occursIn pat cs

/-- Python `pat in s` for strings. -/
def strContains (s pat : String) : Bool := occursIn pat.data s.data

/-- Python `sep.join(xs)`. -/
def joinSep (sep : String) : List String → String
  | [] => ""
  | [x] => x
  | x :: y :: r => x ++ sep ++ joinSep sep (y :: r)

/-! ## Chunker: `RAGService._split_text_simple`

```python
def _split_text_simple(self, text, chunk_size=1024, overlap=20):
    if len(text) <= chunk_size:
        return [text]
    chunks = []
    start = 0
    while start < len(text):
        end = start + chunk_size
        if end < len(text):
            for i in range(min(100, chunk_size - end)):
                if text[end - i] in '.。\n':
                    end = end - i + 1
                    break
        chunk = text[start:end].strip()
        if chunk:
            chunks.append(chunk)
        start = end - overlap
        if start >= len(text):
            break
    return chunks
```

The `while` loop is modelled with explicit fuel; `none` models
non-termination within the given fuel.  `splitRun` additionally records
the window span `(start, end)` of every iteration, which the claims
about offsets and coverage quantify over.  Note `chunk_size - end`
equals `-start ≤ 0` (Python int arithmetic), modelled with `Int`. -/

/-- The sentence-boundary characters of the backward scan. -/
def boundaryChar (c : Char) : Bool := c == '.' || c == '。' || c == '\n'

/-- Number of iterations of the backward scan:
Python `min(100, chunk_size - end)` (an `int`; `range` of a non-positive
bound is empty, hence `Int.toNat`). -/
def scanLen (cs e : Nat) : Nat := (min (100 : Int) ((cs : Int) - (e : Int))).toNat

/-- The backward scan `for i in range(n): if text[end - i] in '.。\n': end = end - i + 1; break`. -/
def cutScan (t : List Char) (e : Nat) : Nat → Nat → Nat
  | _, 0 => e
  | i, n + 1 => if boundaryChar (t.getD (e - i) 'x') then e - i + 1 else cutScan t e (i + 1) n

/-- One modelled `while` pass of `_split_text_simple`, returning the
window spans and the retained chunks; `none` = fuel exhausted. -/
def splitLoop (t : List Char) (cs ov : Nat) : Nat → Nat → Option (List (Nat × Nat) × List String)
  | 0, _ => none
  | fuel + 1, start =>
    if start < t.length then
      let e0 := start + cs
      let e := if e0 < t.length then cutScan t e0 0 (scanLen cs e0) else e0
      let chunk := stripStr ⟨(t.drop start).take (e - start)⟩
      let kept := if chunk.data.isEmpty then ([] : List String) else [chunk]
      let start' := e - ov
      if start' ≥ t.length then some ([(start, e)], kept)
      else
        match splitLoop t cs ov fuel start' with
        | none => none
        | some (sp, ch) => some ((start, e) :: sp, kept ++ ch)
    else some ([], [])

/-- `_split_text_simple`, instrumented with the window spans. -/
def splitRun (t : String) (cs ov : Nat) : Option (List (Nat × Nat) × List String) :=
  if t.data.length ≤ cs then some ([(0, t.data.length)], [t])
  else splitLoop t.data cs ov t.data.length 0

/-- `_split_text_simple` as in the source: the list of chunks. -/
def split_text_simple (t : String) (cs ov : Nat) : Option (List String) :=
  (splitRun t cs ov).map (fun p => p.2)

/-! ## Data model: index entries and query results

An index entry is the ChromaDB tuple `(id, embedding, document, metadata)`
persisted by `_offline_add_documents`; metadata keys are optional because
`_offline_query` reads them with `metadata.get(key, default)`.
A collection is an ordered `List Entry`; the engine's handle to it is an
`Option` (`none` = the collection does not exist, the state in which
`chroma_client.get_collection` raises). -/

structure Entry where
  id : String
  embedding : List Rat
  document : String
  meta_file_name : Option String
  meta_page_label : Option String
  meta_file_path : Option String
  meta_chunk_id : Option Nat
deriving DecidableEq, Repr

/-- A source item of a successful answer
(`{"file_name": ..., "page_label": ..., "score": ...}`). -/
structure Source where
  file_name : String
  page_label : String
  score : Rat
deriving DecidableEq, Repr

/-- The dict returned by `RAGService.query` / `RAGService._offline_query`.
`Option` fields model dict keys that are present only on some paths;
`dimension_mismatch` models the `"dimension_mismatch": True` marker key
(`false` = key absent, as `result.get("dimension_mismatch")` is falsy
exactly when the key is missing). -/
structure QueryResult where
  success : Bool
  answer : Option String
  sources : Option (List Source)
  question : Option String
  error : Option String
  dimension_mismatch : Bool
  mode : Option String
deriving DecidableEq, Repr

/-- Failure dict of the empty-question validation in `RAGService.query`
(lines 678-682): only `success` and `error`, no `question` key. -/
def emptyQuestionResult : QueryResult :=
  { success := false, answer := none, sources := none, question := none,
    error := some "问题不能为空", dimension_mismatch := false, mode := none }

/-- Failure dict returned when `get_collection` raises in `_offline_query`. -/
def noIndexResult (q : String) : QueryResult :=
  { success := false, answer := none, sources := none, question := some q,
    error := some "没有找到文档索引，请先上传文档", dimension_mismatch := false, mode := none }

/-- Failure dict of the explicit dimensionality check in `_offline_query`:
carries both widths in the message and the `dimension_mismatch` marker. -/
def mismatchResult (q : String) (existingDim currentDim : Nat) : QueryResult :=
  { success := false, answer := none, sources := none, question := some q,
    error := some ("向量维度不匹配，请重建索引。现有维度：" ++ toString existingDim ++
                   "，当前维度：" ++ toString currentDim),
    dimension_mismatch := true, mode := none }

/-- Failure dict returned when retrieval yields zero hits. -/
def notFoundResult (q : String) : QueryResult :=
  { success := false, answer := none, sources := none, question := some q,
    error := some "没有找到相关文档", dimension_mismatch := false, mode := none }

/-! ## Vector store: nearest-vector retrieval

`collection.query(query_embeddings=[v], n_results=k)` of the persistent
store: distance is squared L2 (the store's default metric); results are
the `k` entries of smallest distance.  Modelled with a stable insertion
sort by distance. -/

/-- Squared L2 distance between two vectors. -/
def l2sq (a b : List Rat) : Rat :=
  (List.zipWith (fun x y => (x - y) * (x - y)) a b).sum

/-- Insert into a list sorted by ascending distance (stable). -/
def insertAsc (x : Entry × Rat) : List (Entry × Rat) → List (Entry × Rat)
  | [] => [x]
  | y :: ys => if x.2 ≤ y.2 then x :: y :: ys else y :: insertAsc x ys

/-- Sort entry-distance pairs by ascending distance. -/
def sortAsc : List (Entry × Rat) → List (Entry × Rat)
  | [] => []
  | x :: xs => insertAsc x (sortAsc xs)

/-- The store's `query`: the `n` nearest entries with their distances. -/
def chromaQuery (entries : List Entry) (qv : List Rat) (n : Nat) : List (Entry × Rat) :=
  (sortAsc (entries.map (fun e => (e, l2sq e.embedding qv)))).take n

/-! ## Query engine: `RAGService._offline_query` / `RAGService.query`

The engine state carries the collection handle, the embedding provider
(`embed`), the generative answerer (`gen`: `none` models a raised
exception or timeout of `self.llm.complete`, `some s` a returned text)
and `top_k`.  The returned operation trace makes the claims about
"before any retrieval / generation" provable. -/

structure OfflineService where
  store : Option (List Entry)
  embed : String → List Rat
  gen : String → Option String
  top_k : Nat

/-- Observable operations of one query. -/
inductive QOp where
  | embedQ
  | retrieveQ
  | generateQ
deriving DecidableEq, Repr

/-- The prompt template of `_offline_query` (its f-string). -/
def promptTemplate (context q : String) : String :=
  "基于以下文档内容，回答用户的问题。请提供准确、简洁的回答。\n\n相关文档内容：\n" ++ context ++
  "\n\n用户问题：" ++ q ++ "\n\n请基于上述文档内容回答问题："

/-- The deterministic templated fallback answer of `_offline_query`,
used when generation raises, times out or returns empty text. -/
def fallbackAnswer (q context : String) : String :=
  "基于已索引的文档，关于 \x27" ++ q ++ "\x27 的相关信息如下：\n\n" ++ context

/-- Source list built from the top 3 hits
(`metadata.get("file_name", f"文档_{i+1}")`, `metadata.get("page_label", "未知")`,
`score = 1 - distance`). -/
def mkSources (hits : List (Entry × Rat)) : List Source :=
  hits.enum.map (fun p =>
    { file_name := p.2.1.meta_file_name.getD ("文档_" ++ toString (p.1 + 1)),
      page_label := p.2.1.meta_page_label.getD "未知",
      score := 1 - p.2.2 })

/-- The context of a hit list: `"\n\n".join(context_docs[:3])`. -/
def contextOf (hits : List (Entry × Rat)) : String :=
  joinSep "\n\n" ((hits.map (fun x => x.1.document)).take 3)

/-- Answer assembly of `_offline_query`: generation with the deterministic
templated fallback on a raised exception / timeout (`none`) or on empty
returned text (`answer = str(response).strip(); if not answer: ...`). -/
def genAnswer (svc : OfflineService) (q context : String) : String :=
  match svc.gen (promptTemplate context q) with
  | none => fallbackAnswer q context
  | some a => if (stripStr a).data.isEmpty then fallbackAnswer q context else stripStr a

/-- Steps 4-7 of `_offline_query`: retrieval, context assembly, generation
with templated fallback.  Reached only after the dimensionality check. -/
def offlineRetrieve (svc : OfflineService) (q : String) (qv : List Rat)
    (entries : List Entry) : QueryResult × List QOp :=
  match chromaQuery entries qv svc.top_k with
  | [] => (notFoundResult q, [QOp.embedQ, QOp.retrieveQ])
  | r :: rs =>
    ({ success := true, answer := some (genAnswer svc q (contextOf (r :: rs))),
       sources := some (mkSources ((r :: rs).take 3)),
       question := some q, error := none, dimension_mismatch := false, mode := some "offline" },
     [QOp.embedQ, QOp.retrieveQ, QOp.generateQ])

/-- `RAGService._offline_query`: collection lookup, question embedding,
dimensionality check against the first stored entry
(`collection.get(limit=1)`), then retrieval and generation. -/
def offlineQuery (svc : OfflineService) (q : String) : QueryResult × List QOp :=
  match svc.store with
  | none => (noIndexResult q, [])
  | some [] => offlineRetrieve svc q (svc.embed q) []
  | some (first :: rest) =>
    if first.embedding.length ≠ (svc.embed q).length then
      (mismatchResult q first.embedding.length (svc.embed q).length, [QOp.embedQ])
    else offlineRetrieve svc q (svc.embed q) (first :: rest)

/-- `RAGService.query` in offline mode: empty-question validation,
then `_offline_query`. -/
def ragQuery (svc : OfflineService) (q : String) : QueryResult × List QOp :=
  if (stripStr q).data.isEmpty then (emptyQuestionResult, [])
  else offlineQuery svc q

/-- `RAGService.clear_index` on the collection handle: the collection is
deleted and re-created empty (the offline branch also resets the
TF-IDF fitted flag, modelled separately on `TfidfState`). -/
def clear_index_store (_ : Option (List Entry)) : Option (List Entry) :=
  some []

/-! ## Local-lexical embedding provider: `OfflineEmbedding`

The TF-IDF vectorizer itself is an external collaborator (`sklearn`);
it is parameterised by `fit` (corpus to fitted vocabulary) and `score`
(fitted term weight of a term in a text).  What the engine owns — the
lazy-fit state machine, the training corpus assembly and the
vocabulary-derived width — is modelled from the source. -/

/-- The fixed fallback training corpus of `_load_existing_documents`. -/
def seedCorpus : List String :=
  ["这是一个测试文档", "RAG检索增强生成技术", "向量数据库存储文档", "人工智能自然语言处理"]

/-- `OfflineEmbedding._load_existing_documents`: all texts currently in the
collection, or the seed corpus when the collection is missing, unreadable
or empty. -/
def loadExistingDocuments (store : Option (List Entry)) : List String :=
  match store with
  | some (e :: es) => (e :: es).map (fun x => x.document)
  | some [] => seedCorpus
  | none => seedCorpus

/-- Mutable state of `OfflineEmbedding`: the fitted flag and the fitted
vocabulary (meaningful once `is_fitted`). -/
structure TfidfState where
  is_fitted : Bool
  vocab : List String
deriving DecidableEq, Repr

/-- `vectorizer.transform([text])`: one weight per vocabulary term, so the
width of every produced vector is the vocabulary size. -/
def tfTransform (score : String → String → Rat) (vocab : List String) (text : String) :
    List Rat :=
  vocab.map (fun term => score term text)

/-- `OfflineEmbedding.get_text_embedding`: lazy fit on first call
(existing documents plus the text being embedded), then pure reuse of the
fitted vocabulary. -/
def get_text_embedding (fit : List String → List String) (score : String → String → Rat)
    (store : Option (List Entry)) (st : TfidfState) (text : String) :
    List Rat × TfidfState :=
  if st.is_fitted then (tfTransform score st.vocab text, st)
  else
    let training := loadExistingDocuments store ++ [text]
    let vocab := fit training
    (tfTransform score vocab text, { is_fitted := true, vocab := vocab })

/-- A sequence of embedding calls threading the provider state. -/
def embedSeq (fit : List String → List String) (score : String → String → Rat)
    (store : Option (List Entry)) (st : TfidfState) :
    List String → List (List Rat) × TfidfState
  | [] => ([], st)
  | t :: ts =>
    let r := get_text_embedding fit score store st t
    let rest := embedSeq fit score store r.2 ts
    (r.1 :: rest.1, rest.2)

/-! ## Text extractor: `RAGService._extract_text_simple`

A file is modelled by its (lower-cased) extension, its text content
(for `.txt`/`.md`) and its PDF pages, where `none` models a page on
which `page.extract_text()` raises.  `pypdfAvail` models whether
`import pypdf` succeeds.  The per-page loop only guards against
`ImportError`; any page failure propagates to the outer handler of
`_extract_text_simple`, which returns the empty string for the file. -/

structure FileModel where
  path : String
  name : String
  stem : String
  ext : String
  text : String
  pages : List (Option String)
deriving DecidableEq, Repr

/-- The page loop `for page in reader.pages: text += page.extract_text() + "\n"`;
`none` = some page raised. -/
def pdfExtract : List (Option String) → String → Option String
  | [], acc => some acc
  | none :: _, _ => none
  | some p :: rest, acc => pdfExtract rest (acc ++ p ++ "\n")

/-- The concatenation produced when every page extracts successfully. -/
def pdfConcatAll (pages : List (Option String)) : String :=
  pages.foldl (fun acc p => acc ++ p.getD "" ++ "\n") ""

/-- Modelled from the spec: "extract text page-by-page, concatenating
successful pages and skipping unreadable pages without aborting the whole
file" — the per-page-resilient extraction the spec describes, used only to
compare against the behaviour of `_extract_text_simple`. -/
def specPageSkipConcat (pages : List (Option String)) : String :=
  (pages.filterMap id).foldl (fun acc p => acc ++ p ++ "\n") ""

/-- `RAGService._extract_text_simple`. -/
def extract_text_simple (pypdfAvail : Bool) (f : FileModel) : String :=
  if f.ext == ".txt" || f.ext == ".md" then f.text
  else if f.ext == ".pdf" then
    if pypdfAvail then (pdfExtract f.pages "").getD "" else ""
  else ""

/-! ## Ingestion pipeline: `RAGService._offline_add_documents`

The filesystem is part of the environment: `dirExists`/`dirFiles` model
the recursive scan of the documents directory, a supplied path that does
not exist on disk is modelled as `none`.  `embed` returns `none` when the
provider raises on that chunk; chunks already added before the failure
stay in the collection, the per-file `except` then skips the rest of that
file only. -/

structure IngestEnv where
  pypdf : Bool
  embed : String → Option (List Rat)
  cs : Nat
  ov : Nat
  dirExists : Bool
  dirFiles : List FileModel
  store : Option (List Entry)

/-- Outcome of one `_offline_add_documents` call: the returned Bool, the
collection afterwards, whether the documents directory was created, and
the paths of the files the batch iterated over. -/
structure IngestOut where
  ok : Bool
  store : Option (List Entry)
  dirCreated : Bool
  processed : List String
deriving Repr

/-- Extensions accepted by the directory scan. -/
def allowedSuffix (ext : String) : Bool :=
  ext == ".txt" || ext == ".md" || ext == ".pdf" || ext == ".docx"

/-- The index entry `_offline_add_documents` persists for one chunk:
`doc_id = f"{stem}_{i}"` with metadata `{file_name, file_path, chunk_id}`. -/
def chunkEntry (f : FileModel) (c : String) (i : Nat) (v : List Rat) : Entry :=
  { id := f.stem ++ "_" ++ toString i, embedding := v, document := c,
    meta_file_name := some f.name, meta_page_label := none,
    meta_file_path := some f.path, meta_chunk_id := some i }

/-- Per-chunk loop of `_offline_add_documents`: skip chunks shorter than 10
after stripping, embed and add the rest; an embedding failure aborts the
rest of this file (second component `false`), keeping earlier adds. -/
def addChunksLoop (embed : String → Option (List Rat)) (f : FileModel) :
    List String → Nat → List Entry → List Entry × Bool
  | [], _, col => (col, true)
  | c :: rest, i, col =>
    if (stripStr c).data.length < 10 then addChunksLoop embed f rest (i + 1) col
    else
      match embed c with
      | none => (col, false)
      | some v => addChunksLoop embed f rest (i + 1) (col ++ [chunkEntry f c i v])

/-- Per-file body of `_offline_add_documents` (inside the per-file `try`):
extract, skip if empty, chunk, add chunk embeddings. -/
def processFile (embed : String → Option (List Rat)) (pypdf : Bool) (cs ov : Nat)
    (f : FileModel) (col : List Entry) : List Entry :=
  if (stripStr (extract_text_simple pypdf f)).data.isEmpty then col
  else
    match splitRun (extract_text_simple pypdf f) cs ov with
    | none => col
    | some (_, chunks) => (addChunksLoop embed f chunks 0 col).1

/-- Initial collection contents of a batch: get-or-create. -/
def colInit (env : IngestEnv) : List Entry :=
  match env.store with
  | some c => c
  | none => []

/-- The batch over a resolved file list: get-or-create the collection and
fold the per-file processing; always completes with `True`. -/
def ingestBatch (env : IngestEnv) (files : List FileModel) : IngestOut :=
  if files.isEmpty then { ok := true, store := env.store, dirCreated := false, processed := [] }
  else
    let colF := files.foldl (fun c f => processFile env.embed env.pypdf env.cs env.ov f c)
      (colInit env)
    { ok := true, store := some colF, dirCreated := false,
      processed := files.map (fun f => f.path) }

/-- `RAGService._offline_add_documents`: explicit paths are filtered to the
existing ones; otherwise the documents directory is scanned recursively
(created, with immediate success, when absent). -/
def offline_add_documents (env : IngestEnv) (paths : Option (List (Option FileModel))) :
    IngestOut :=
  match paths with
  | some ps => ingestBatch env (ps.filterMap id)
  | none =>
    if env.dirExists then
      ingestBatch env (env.dirFiles.filter (fun f => allowedSuffix f.ext))
    else { ok := true, store := env.store, dirCreated := true, processed := [] }

/-- The entries one file contributes on its own. -/
def fileContrib (env : IngestEnv) (f : FileModel) : List Entry :=
  processFile env.embed env.pypdf env.cs env.ov f []

/-- Concatenation of per-file contributions. -/
def flatAll : List (List Entry) → List Entry
  | [] => []
  | l :: ls => l ++ flatAll ls

/-! ## HTTP-layer repair policy: `query_rag` in `app.py`

The engine operations the handler calls (`rag.query`, `rag.clear_index`,
`rag.add_documents`, `rag.get_document_count`, the documents-directory
listing) are an environment of outcomes; the handler's own control flow —
the rebuild trigger, the single reset+reingest+requery cycle and the
result annotation — is modelled from the source.  The returned trace of
`ROp` makes "exactly once" provable. -/

structure Env where
  firstResult : QueryResult
  docCount : Nat
  dirExists : Bool
  fileCount : Nat
  clearOk : Bool
  addOk : Bool
  retryResult : QueryResult

/-- Engine operations the handler performs, in order. -/
inductive ROp where
  | queryOp (q : String)
  | clearOp
  | ingestOp
deriving DecidableEq, Repr

/-- Recognise a query op in the trace. -/
def isQueryOp : ROp → Bool
  | .queryOp _ => true
  | _ => false

/-- The final dict returned by `query_rag`: the query result plus the
annotation keys the handler may add. -/
structure ApiResult where
  base : QueryResult
  rebuilt_index : Bool
  rebuild_attempted : Bool
  rebuild_reason : Option String
  rebuild_failed : Option String
deriving DecidableEq, Repr

/-- The rebuild trigger of `query_rag` (lines 221-244): dimension mismatch,
or a "no documents found / no index" error while the collection counts zero
entries and the documents directory holds at least one file.  Returns the
flag and the reason string. -/
def needsRebuild (r : QueryResult) (docCount : Nat) (dirExists : Bool) (fileCount : Nat) :
    Bool × String :=
  if r.success then (false, "")
  else if r.dimension_mismatch then (true, "向量维度不匹配")
  else if strContains (lowerStr (r.error.getD "")) "没有找到相关文档"
        || strContains (lowerStr (r.error.getD "")) "没有找到文档索引" then
    if docCount = 0 then
      if dirExists then
        if 0 < fileCount then (true, "发现" ++ toString fileCount ++ "个文档文件但索引为空")
        else (false, "")
      else (false, "")
    else (false, "")
  else (false, "")

/-- `query_rag` after validation (lines 216-273): first query, rebuild
detection, at most one clear+reingest+requery cycle, result annotation. -/
def query_rag (q : String) (env : Env) : ApiResult × List ROp :=
  if (needsRebuild env.firstResult env.docCount env.dirExists env.fileCount).1 then
    if env.clearOk then
      if env.addOk then
        if env.retryResult.success then
          ({ base := env.retryResult, rebuilt_index := true, rebuild_attempted := false,
             rebuild_reason :=
               some (needsRebuild env.firstResult env.docCount env.dirExists env.fileCount).2,
             rebuild_failed := none },
           [.queryOp q, .clearOp, .ingestOp, .queryOp q])
        else
          ({ base := env.retryResult, rebuilt_index := false, rebuild_attempted := true,
             rebuild_reason :=
               some (needsRebuild env.firstResult env.docCount env.dirExists env.fileCount).2,
             rebuild_failed := none },
           [.queryOp q, .clearOp, .ingestOp, .queryOp q])
      else
        ({ base := env.firstResult, rebuilt_index := false, rebuild_attempted := false,
           rebuild_reason := none, rebuild_failed := some "添加文档失败" },
         [.queryOp q, .clearOp, .ingestOp])
    else
      ({ base := env.firstResult, rebuilt_index := false, rebuild_attempted := false,
         rebuild_reason := none, rebuild_failed := some "清空索引失败" },
       [.queryOp q, .clearOp])
  else
    ({ base := env.firstResult, rebuilt_index := false, rebuild_attempted := false,
       rebuild_reason := none, rebuild_failed := none }, [.queryOp q])

/-- A result is a DimensionMismatch result (the shape `_offline_query`
produces for stale vector widths). -/
def isDimMismatchResult (r : QueryResult) : Prop :=
  r.success = false ∧ r.dimension_mismatch = true

/-- A result is a NotFound result: one of the two "nothing retrievable"
failure dicts of `_offline_query`. -/
def isNotFoundResult (r : QueryResult) : Prop :=
  r.success = false ∧
    (r.error = some "没有找到相关文档" ∨ r.error = some "没有找到文档索引，请先上传文档")

/-- The context string a query retrieves: the top-3 retrieved documents
joined with blank lines (used to state the generation-fallback property). -/
def retrievedContext (svc : OfflineService) (q : String) (entries : List Entry) : String :=
  contextOf (chromaQuery entries (svc.embed q) svc.top_k)

/-! ## Concrete instances used by the witnesses. -/

/-- A stored entry whose vector has width 2 (stale width). -/
def entryDimW : Entry :=
  { id := "a_0", embedding := [1, 2], document := "向量数据库存储文档",
    meta_file_name := some "a.txt", meta_page_label := none,
    meta_file_path := some "./documents/a.txt", meta_chunk_id := some 0 }

/-- Engine state whose stored width (2) differs from the query width (1). -/
def svcDimW : OfflineService :=
  { store := some [entryDimW], embed := fun _ => [1], gen := fun _ => none, top_k := 5 }

/-- An arbitrary engine state for the validation witness. -/
def svcValW : OfflineService :=
  { store := none, embed := fun _ => [1], gen := fun _ => some "好的", top_k := 5 }

/-- Engine state immediately after `clear_index`. -/
def svcResetW : OfflineService :=
  { store := clear_index_store none, embed := fun _ => [1], gen := fun _ => some "好的",
    top_k := 5 }

/-- A stored entry whose vector width matches the query width. -/
def entryGenW : Entry :=
  { id := "a_0", embedding := [1], document := "RAG结合了检索与生成。",
    meta_file_name := some "a.txt", meta_page_label := none,
    meta_file_path := some "./documents/a.txt", meta_chunk_id := some 0 }

/-- Engine state whose generative answerer always raises. -/
def svcGenW : OfflineService :=
  { store := some [entryGenW], embed := fun _ => [0], gen := fun _ => none, top_k := 5 }

/-- A PDF file with an unreadable second page. -/
def pdfBadFile : FileModel :=
  { path := "./documents/b.pdf", name := "b.pdf", stem := "b", ext := ".pdf",
    text := "", pages := [some "A", none, some "C"] }

/-- A PDF file whose pages all extract. -/
def pdfGoodFile : FileModel :=
  { path := "./documents/c.pdf", name := "c.pdf", stem := "c", ext := ".pdf",
    text := "", pages := [some "A", some "C"] }

/-- A plain-text file on disk. -/
def fileIngestW : FileModel :=
  { path := "./documents/a.txt", name := "a.txt", stem := "a", ext := ".txt",
    text := "RAG combines retrieval and generation.", pages := [] }

/-- An ingestion environment scanning a directory with one text file. -/
def envIngestW : IngestEnv :=
  { pypdf := true, embed := fun _ => some [1], cs := 1024, ov := 20,
    dirExists := true, dirFiles := [fileIngestW], store := none }

/-- A handler environment: first query hit a dimension mismatch, the store
operations succeed, the retried query fails again. -/
def envRepairW : Env :=
  { firstResult := mismatchResult "什么是RAG" 384 1000, docCount := 3, dirExists := true,
    fileCount := 2, clearOk := true, addOk := true, retryResult := notFoundResult "什么是RAG" }

/-! # Theorems -/

/-! ## Chunker lemmas -/

/-- The backward-scan iteration count `min(100, chunk_size - end)` is never
positive, since `end = start + chunk_size`: the scan is dead code. -/
theorem scanLen_dead (cs start : Nat) : scanLen cs (start + cs) = 0 := by
  have h2 : ((cs : Int) - ((start + cs : Nat) : Int)) ≤ 0 := by push_cast; omega
  exact Int.toNat_of_nonpos (le_trans (min_le_right _ _) h2)

/-- The chunk a loop iteration at offset `start` retains. -/
def keptChunk (t : List Char) (cs start : Nat) : List String :=
  if (stripStr ⟨(t.drop start).take cs⟩).data.isEmpty then []
  else [stripStr ⟨(t.drop start).take cs⟩]

/-- One unfolding of the splitter loop when `start < len(text)`: the cut
point is always exactly `start + chunk_size`. -/
theorem splitLoop_step (t : List Char) (cs ov fuel start : Nat) (h : start < t.length) :
    splitLoop t cs ov (fuel + 1) start =
      if start + cs - ov ≥ t.length then some ([(start, start + cs)], keptChunk t cs start)
      else
        match splitLoop t cs ov fuel (start + cs - ov) with
        | none => none
        | some (sp, ch) => some ((start, start + cs) :: sp, keptChunk t cs start ++ ch) := by
  conv_lhs => rw [splitLoop]
  rw [if_pos h]
  simp only [scanLen_dead, cutScan, ite_self, keptChunk, Nat.add_sub_cancel_left]

/-- Soundness of the splitter loop under the `overlap < chunkSize`
invariant: with fuel at least the remaining length it terminates, the
produced window offsets start at `start`, strictly increase, and the
windows cover every remaining character. -/
theorem splitLoop_sound (t : List Char) (cs ov : Nat) (hov : ov < cs) :
    ∀ fuel start, start < t.length → t.length ≤ start + fuel →
    ∃ sp ch, splitLoop t cs ov fuel start = some (sp, ch)
      ∧ (∀ p ∈ sp, start ≤ p.1)
      ∧ List.Pairwise (fun a b : Nat × Nat => a.1 < b.1) sp
      ∧ (∀ j, start ≤ j → j < t.length → ∃ p ∈ sp, p.1 ≤ j ∧ j < p.2) := by
  intro fuel
  induction fuel with
  | zero => intro start h1 h2; omega
  | succ n ih =>
    intro start h1 h2
    rw [splitLoop_step t cs ov n start h1]
    by_cases hb : start + cs - ov ≥ t.length
    · rw [if_pos hb]
      refine ⟨[(start, start + cs)], keptChunk t cs start, rfl, ?_, ?_, ?_⟩
      · intro p hp
        rw [List.mem_singleton] at hp
        subst hp
        exact le_refl _
      · simp
      · intro j hj1 hj2
        exact ⟨(start, start + cs), List.mem_singleton_self _, hj1, by omega⟩
    · rw [if_neg hb]
      have hlt : start + cs - ov < t.length := by omega
      have hstep : start < start + cs - ov := by omega
      have hfuel : t.length ≤ (start + cs - ov) + n := by omega
      obtain ⟨sp, ch, heq, hlb, hpw, hcov⟩ := ih (start + cs - ov) hlt hfuel
      rw [heq]
      refine ⟨(start, start + cs) :: sp, keptChunk t cs start ++ ch, rfl, ?_, ?_, ?_⟩
      · intro p hp
        rcases List.mem_cons.mp hp with h | h
        · subst h; exact le_refl _
        · have := hlb p h; omega
      · refine List.Pairwise.cons ?_ hpw
        intro p hp
        have := hlb p hp
        simp only
        omega
      · intro j hj1 hj2
        by_cases hj : j < start + cs - ov
        · exact ⟨(start, start + cs), List.mem_cons_self _ _, hj1, by omega⟩
        · obtain ⟨p, hp, hp1, hp2⟩ := hcov j (by omega) hj2
          exact ⟨p, List.mem_cons_of_mem _ hp, hp1, hp2⟩

/-! ## C3 and C4 -/

/-- C3: for every chunk size C > 0, overlap O < C, and text of length
L ≥ C, the splitter terminates (`some`), its window start offsets are
strictly increasing, and the windows cover every character of the text. -/
theorem c3_splitter_monotone_cover (t : String) (cs ov : Nat)
    (hcs : 0 < cs) (hov : ov < cs) (hlen : cs ≤ t.data.length) :
    ∃ sp ch, splitRun t cs ov = some (sp, ch)
      ∧ List.Pairwise (fun a b : Nat × Nat => a.1 < b.1) sp
      ∧ ∀ j, j < t.data.length → ∃ p ∈ sp, p.1 ≤ j ∧ j < p.2 := by
  unfold splitRun
  by_cases h : t.data.length ≤ cs
  · rw [if_pos h]
    refine ⟨[(0, t.data.length)], [t], rfl, by simp, ?_⟩
    intro j hj
    exact ⟨(0, t.data.length), List.mem_singleton_self _, Nat.zero_le _, hj⟩
  · rw [if_neg h]
    have h1 : 0 < t.data.length := by omega
    obtain ⟨sp, ch, heq, _, hpw, hcov⟩ :=
      splitLoop_sound t.data cs ov hov t.data.length 0 h1 (by omega)
    exact ⟨sp, ch, heq, hpw, fun j hj => hcov j (Nat.zero_le _) hj⟩

/-- Witness for C3 at a concrete text: the splitter terminates there. -/
theorem c3_splitter_monotone_cover_witness :
    (splitRun "abcdefghijklmno" 6 2).isSome = true := by
  obtain ⟨sp, ch, heq, -, -⟩ :=
    c3_splitter_monotone_cover "abcdefghijklmno" 6 2 (by decide) (by decide) (by decide)
  rw [heq]
  rfl

/-- C4 (code bug): the backward sentence-boundary scan never executes
(`range(min(100, chunk_size - end))` is empty because
`chunk_size - end = -start ≤ 0`), so the cut stays at `start + chunk_size`
even when a sentence terminator lies within 100 characters before it:
on `"aaaaaaaaa.bbbbbbbbbb"` with chunk size 12 and overlap 2 the first
chunk is `"aaaaaaaaa.bb"`, not the claimed `"aaaaaaaaa."`. -/
theorem c4_boundary_scan_dead :
    splitRun "aaaaaaaaa.bbbbbbbbbb" 12 2 =
      some ([(0, 12), (10, 22)], ["aaaaaaaaa.bb", "bbbbbbbbbb"]) := by decide

/-! ## Query-engine lemmas -/

/-- Inserting preserves length plus one. -/
theorem insertAsc_length (x : Entry × Rat) (l : List (Entry × Rat)) :
    (insertAsc x l).length = l.length + 1 := by
  induction l with
  | nil => rfl
  | cons y ys ih =>
    unfold insertAsc
    by_cases h : x.2 ≤ y.2
    · rw [if_pos h]; rfl
    · rw [if_neg h]; simp [ih]

/-- Sorting preserves length. -/
theorem sortAsc_length (l : List (Entry × Rat)) : (sortAsc l).length = l.length := by
  induction l with
  | nil => rfl
  | cons x xs ih => unfold sortAsc; rw [insertAsc_length, ih, List.length_cons]

/-- Retrieval from a non-empty collection with positive `top_k` yields at
least one hit. -/
theorem chromaQuery_ne_nil (entries : List Entry) (qv : List Rat) (n : Nat)
    (he : entries ≠ []) (hn : 0 < n) : chromaQuery entries qv n ≠ [] := by
  unfold chromaQuery
  intro hcon
  have hlen := congrArg List.length hcon
  rw [List.length_take, sortAsc_length, List.length_map] at hlen
  simp only [List.length_nil] at hlen
  have : 0 < entries.length := List.length_pos.mpr he
  omega

/-- Equation: `_offline_query` when the collection does not exist. -/
theorem offlineQuery_store_none (svc : OfflineService) (q : String)
    (hs : svc.store = none) : offlineQuery svc q = (noIndexResult q, []) := by
  unfold offlineQuery
  rw [hs]

/-- Equation: `_offline_query` on an existing empty collection. -/
theorem offlineQuery_store_empty (svc : OfflineService) (q : String)
    (hs : svc.store = some []) :
    offlineQuery svc q = offlineRetrieve svc q (svc.embed q) [] := by
  unfold offlineQuery
  rw [hs]

/-- Equation: `_offline_query` on a non-empty collection is the
dimensionality check followed by retrieval. -/
theorem offlineQuery_store_cons (svc : OfflineService) (q : String)
    (first : Entry) (rest : List Entry) (hs : svc.store = some (first :: rest)) :
    offlineQuery svc q =
      if first.embedding.length ≠ (svc.embed q).length then
        (mismatchResult q first.embedding.length (svc.embed q).length, [QOp.embedQ])
      else offlineRetrieve svc q (svc.embed q) (first :: rest) := by
  unfold offlineQuery
  rw [hs]

/-- Equation: retrieval with zero hits. -/
theorem offlineRetrieve_nil (svc : OfflineService) (q : String) (qv : List Rat)
    (entries : List Entry) (hres : chromaQuery entries qv svc.top_k = []) :
    offlineRetrieve svc q qv entries = (notFoundResult q, [QOp.embedQ, QOp.retrieveQ]) := by
  unfold offlineRetrieve
  rw [hres]

/-- Equation: retrieval with at least one hit. -/
theorem offlineRetrieve_cons (svc : OfflineService) (q : String) (qv : List Rat)
    (entries : List Entry) (r : Entry × Rat) (rs : List (Entry × Rat))
    (hres : chromaQuery entries qv svc.top_k = r :: rs) :
    offlineRetrieve svc q qv entries =
      ({ success := true, answer := some (genAnswer svc q (contextOf (r :: rs))),
         sources := some (mkSources ((r :: rs).take 3)),
         question := some q, error := none, dimension_mismatch := false,
         mode := some "offline" },
       [QOp.embedQ, QOp.retrieveQ, QOp.generateQ]) := by
  unfold offlineRetrieve
  rw [hres]

/-- The generative answerer raising or returning empty text yields the
templated fallback answer. -/
theorem genAnswer_fallback (svc : OfflineService) (q context : String)
    (hgen : svc.gen (promptTemplate context q) = none
          ∨ ∃ s, svc.gen (promptTemplate context q) = some s
               ∧ (stripStr s).data.isEmpty = true) :
    genAnswer svc q context = fallbackAnswer q context := by
  unfold genAnswer
  rcases hgen with hg | ⟨s, hg, hs⟩
  · rw [hg]
  · rw [hg]
    show (if (stripStr s).data.isEmpty then fallbackAnswer q context else stripStr s)
        = fallbackAnswer q context
    simp [hs]

/-- Every result of `offlineRetrieve` carries the original question. -/
theorem offlineRetrieve_question (svc : OfflineService) (q : String) (qv : List Rat)
    (entries : List Entry) : (offlineRetrieve svc q qv entries).1.question = some q := by
  unfold offlineRetrieve
  cases chromaQuery entries qv svc.top_k with
  | nil => rfl
  | cons r rs => rfl

/-- Every result of `_offline_query` carries the original question. -/
theorem offlineQuery_question (svc : OfflineService) (q : String) :
    (offlineQuery svc q).1.question = some q := by
  cases hs : svc.store with
  | none => rw [offlineQuery_store_none svc q hs]; rfl
  | some entries =>
    cases entries with
    | nil =>
      rw [offlineQuery_store_empty svc q hs]
      exact offlineRetrieve_question svc q (svc.embed q) []
    | cons first rest =>
      rw [offlineQuery_store_cons svc q first rest hs]
      by_cases hd : first.embedding.length ≠ (svc.embed q).length
      · rw [if_pos hd]; rfl
      · rw [if_neg hd]
        exact offlineRetrieve_question svc q (svc.embed q) (first :: rest)

/-! ## C2, C5, C7, C10 -/

/-- C2: a query against a non-empty collection whose stored width differs
from the freshly embedded question's width returns the DimensionMismatch
dict carrying both widths, with only the embedding step performed — no
retrieval distance computation and no generation. -/
theorem c2_dimension_mismatch_guard (svc : OfflineService) (q : String)
    (first : Entry) (rest : List Entry)
    (hstore : svc.store = some (first :: rest))
    (hdim : first.embedding.length ≠ (svc.embed q).length) :
    offlineQuery svc q
      = (mismatchResult q first.embedding.length (svc.embed q).length, [QOp.embedQ])
    ∧ QOp.retrieveQ ∉ (offlineQuery svc q).2
    ∧ QOp.generateQ ∉ (offlineQuery svc q).2
    ∧ (offlineQuery svc q).1.success = false
    ∧ (offlineQuery svc q).1.dimension_mismatch = true := by
  have h : offlineQuery svc q
      = (mismatchResult q first.embedding.length (svc.embed q).length, [QOp.embedQ]) := by
    rw [offlineQuery_store_cons svc q first rest hstore, if_pos hdim]
  refine ⟨h, ?_, ?_, ?_, ?_⟩ <;> rw [h]
  · simp
  · simp
  · rfl
  · rfl

/-- Witness for C2: a concrete stale store (width 2) queried with a width-1
embedding fails with the mismatch marker and no retrieval. -/
theorem c2_dimension_mismatch_guard_witness :
    (offlineQuery svcDimW "什么是RAG").1.dimension_mismatch = true
    ∧ QOp.retrieveQ ∉ (offlineQuery svcDimW "什么是RAG").2 := by
  have h := c2_dimension_mismatch_guard svcDimW "什么是RAG" entryDimW [] rfl (by decide)
  exact ⟨h.2.2.2.2, h.2.1⟩

/-- C5: a query issued right after `clear_index` (collection re-created
empty, nothing re-ingested) returns the NotFound dict with
`success = false` as a value — the modelled call is total, no exception
reaches the caller. -/
theorem c5_query_after_reset (svc : OfflineService) (s0 : Option (List Entry)) (q : String)
    (hstore : svc.store = clear_index_store s0)
    (hq : (stripStr q).data.isEmpty = false) :
    ragQuery svc q = (notFoundResult q, [QOp.embedQ, QOp.retrieveQ])
    ∧ (ragQuery svc q).1.success = false := by
  have hs' : svc.store = some [] := by rw [hstore]; rfl
  have hcq : chromaQuery [] (svc.embed q) svc.top_k = [] := by
    unfold chromaQuery
    rw [show sortAsc (([] : List Entry).map (fun e => (e, l2sq e.embedding (svc.embed q)))) = []
        from rfl]
    exact List.take_nil
  have h : ragQuery svc q = (notFoundResult q, [QOp.embedQ, QOp.retrieveQ]) := by
    unfold ragQuery
    rw [hq]
    simp only [Bool.false_eq_true, if_false]
    rw [offlineQuery_store_empty svc q hs']
    exact offlineRetrieve_nil svc q (svc.embed q) [] hcq
  exact ⟨h, by rw [h]; rfl⟩

/-- Witness for C5 at a concrete question. -/
theorem c5_query_after_reset_witness :
    (ragQuery svcResetW "测试问题").1.success = false :=
  (c5_query_after_reset svcResetW none "测试问题" rfl (by decide)).2

/-- C7: when retrieval succeeds (non-empty matching-width collection,
positive `top_k`) and the generative answerer raises, times out or returns
empty text, the query still succeeds and the answer is the deterministic
template stating the question and echoing the retrieved context. -/
theorem c7_generation_fallback (svc : OfflineService) (q : String)
    (first : Entry) (rest : List Entry)
    (hstore : svc.store = some (first :: rest))
    (hdim : first.embedding.length = (svc.embed q).length)
    (hk : 0 < svc.top_k)
    (hgen : svc.gen (promptTemplate (retrievedContext svc q (first :: rest)) q) = none
          ∨ ∃ s, svc.gen (promptTemplate (retrievedContext svc q (first :: rest)) q) = some s
               ∧ (stripStr s).data.isEmpty = true) :
    (offlineQuery svc q).1.success = true
    ∧ (offlineQuery svc q).1.answer
        = some (fallbackAnswer q (retrievedContext svc q (first :: rest))) := by
  have hne : chromaQuery (first :: rest) (svc.embed q) svc.top_k ≠ [] :=
    chromaQuery_ne_nil (first :: rest) (svc.embed q) svc.top_k (by simp) hk
  obtain ⟨r, rs, hres⟩ := List.exists_cons_of_ne_nil hne
  have hctx : retrievedContext svc q (first :: rest) = contextOf (r :: rs) := by
    unfold retrievedContext
    rw [hres]
  have hd' : ¬ first.embedding.length ≠ (svc.embed q).length := by omega
  have hun : offlineQuery svc q = offlineRetrieve svc q (svc.embed q) (first :: rest) := by
    rw [offlineQuery_store_cons svc q first rest hstore, if_neg hd']
  rw [hun, offlineRetrieve_cons svc q (svc.embed q) (first :: rest) r rs hres]
  rw [hctx] at hgen ⊢
  refine ⟨rfl, ?_⟩
  rw [genAnswer_fallback svc q (contextOf (r :: rs)) hgen]

/-- Witness for C7: a concrete store and an answerer that always raises. -/
theorem c7_generation_fallback_witness :
    (offlineQuery svcGenW "什么是RAG").1.success = true :=
  (c7_generation_fallback svcGenW "什么是RAG" entryGenW [] rfl (by decide) (by decide)
    (Or.inl rfl)).1

/-- C10: an empty or whitespace-only question yields the dict holding only
`success = false` and the error message — the `question` key is absent,
unlike on every other path, which always carries `question`; the modelled
`query` is a total function, so every string input yields a result dict
and no exception propagates. -/
theorem c10_query_validation (svc : OfflineService) (q : String) :
    ((stripStr q).data.isEmpty = true → ragQuery svc q = (emptyQuestionResult, []))
    ∧ ((stripStr q).data.isEmpty = false → (ragQuery svc q).1.question = some q) := by
  constructor
  · intro h
    unfold ragQuery
    rw [h]
    rfl
  · intro h
    unfold ragQuery
    rw [h]
    simp only [Bool.false_eq_true, if_false]
    exact offlineQuery_question svc q

/-- Witness for C10 at a whitespace-only question. -/
theorem c10_query_validation_witness :
    ragQuery svcValW "   " = (emptyQuestionResult, []) :=
  (c10_query_validation svcValW "   ").1 (by decide)

/-! ## Extraction lemmas and C6 -/

/-- If every page extracts, the page loop returns the accumulated
concatenation of page texts, each followed by a newline. -/
theorem pdfExtract_all_some (pages : List (Option String)) (hall : ∀ p ∈ pages, p ≠ none) :
    ∀ acc, pdfExtract pages acc
      = some (pages.foldl (fun a p => a ++ p.getD "" ++ "\n") acc) := by
  induction pages with
  | nil => intro acc; rfl
  | cons p rest ih =>
    intro acc
    cases p with
    | none => exact absurd rfl (hall none (List.mem_cons_self _ _))
    | some s =>
      have hrest : ∀ x ∈ rest, x ≠ none := fun x hx => hall x (List.mem_cons_of_mem _ hx)
      simpa using ih hrest (acc ++ s ++ "\n")

/-- If some page raises, the page loop raises (and the file-level handler
then returns the empty string). -/
theorem pdfExtract_has_none (pages : List (Option String)) (hbad : none ∈ pages) :
    ∀ acc, pdfExtract pages acc = none := by
  induction pages with
  | nil => cases hbad
  | cons p rest ih =>
    intro acc
    cases p with
    | none => rfl
    | some s =>
      have : none ∈ rest := by
        rcases List.mem_cons.mp hbad with h | h
        · exact absurd h.symm (Option.some_ne_none s)
        · exact h
      exact ih this (acc ++ s ++ "\n")

/-- C6 counterexample: on a PDF whose second page is unreadable, the
extractor does not skip the bad page and concatenate the good ones — it
returns the empty string for the whole file. -/
theorem c6_page_skip_counterexample :
    extract_text_simple true pdfBadFile ≠ specPageSkipConcat pdfBadFile.pages := by decide

/-- C6 (amended): PDF extraction concatenates the page texts (each plus a
newline) only when every page extracts; a single failing page makes the
whole file yield empty text (the outer handler catches the propagated
exception), and a missing pypdf also yields empty text with a warning. -/
theorem c6_pdf_extraction (f : FileModel) (hext : f.ext = ".pdf") :
    ((∀ p ∈ f.pages, p ≠ none) → extract_text_simple true f = pdfConcatAll f.pages)
    ∧ (none ∈ f.pages → extract_text_simple true f = "")
    ∧ extract_text_simple false f = "" := by
  have hne1 : (f.ext == ".txt" || f.ext == ".md") = false := by rw [hext]; rfl
  have hpdf : (f.ext == ".pdf") = true := by rw [hext]; rfl
  refine ⟨?_, ?_, ?_⟩
  · intro hall
    unfold extract_text_simple
    rw [hne1, hpdf]
    simp only [if_false, if_true, Bool.false_eq_true]
    rw [pdfExtract_all_some f.pages hall ""]
    rfl
  · intro hbad
    unfold extract_text_simple
    rw [hne1, hpdf]
    simp only [if_false, if_true, Bool.false_eq_true]
    rw [pdfExtract_has_none f.pages hbad ""]
    rfl
  · unfold extract_text_simple
    rw [hne1, hpdf]
    simp only [if_false, if_true, Bool.false_eq_true]

/-- Witness for the amended C6 on a PDF whose pages all extract. -/
theorem c6_pdf_extraction_witness :
    extract_text_simple true pdfGoodFile = pdfConcatAll pdfGoodFile.pages :=
  (c6_pdf_extraction pdfGoodFile rfl).1 (by decide)

/-! ## Embedding-provider lemmas and C9 -/

/-- A fitted provider reuses its vocabulary and never changes state. -/
theorem get_text_embedding_fitted (fit : List String → List String)
    (score : String → String → Rat) (store : Option (List Entry))
    (st : TfidfState) (t : String) (hf : st.is_fitted = true) :
    get_text_embedding fit score store st t = (tfTransform score st.vocab t, st) := by
  unfold get_text_embedding
  rw [hf]
  rfl

/-- A call sequence starting from a fitted provider transforms every text
with the fitted vocabulary and never changes the state. -/
theorem embedSeq_fitted (fit : List String → List String)
    (score : String → String → Rat) (store : Option (List Entry))
    (st : TfidfState) (hf : st.is_fitted = true) :
    ∀ ts, embedSeq fit score store st ts = (ts.map (tfTransform score st.vocab), st) := by
  intro ts
  induction ts with
  | nil => rfl
  | cons t rest ih =>
    unfold embedSeq
    rw [get_text_embedding_fitted fit score store st t hf]
    show (tfTransform score st.vocab t :: (embedSeq fit score store st rest).1,
          (embedSeq fit score store st rest).2)
        = (List.map (tfTransform score st.vocab) (t :: rest), st)
    rw [ih]
    rfl

/-- C9: the local-lexical provider fits at most once — the first call fits
on the stored texts (or the fixed four-document seed corpus when the store
is missing or empty) plus the embedded text and marks the provider fitted;
every later call reuses the fitted vocabulary without refitting and with
unchanged state, so all embedding widths after the fit equal the fitted
vocabulary size. -/
theorem c9_tfidf_fit_once (fit : List String → List String)
    (score : String → String → Rat) (store : Option (List Entry))
    (st0 : TfidfState) (t : String) (h0 : st0.is_fitted = false) :
    (get_text_embedding fit score store st0 t).2
      = { is_fitted := true, vocab := fit (loadExistingDocuments store ++ [t]) }
    ∧ (get_text_embedding fit score store st0 t).1.length
      = (fit (loadExistingDocuments store ++ [t])).length
    ∧ ((store = none ∨ store = some []) → loadExistingDocuments store = seedCorpus)
    ∧ (∀ st t2, st.is_fitted = true →
        get_text_embedding fit score store st t2 = (tfTransform score st.vocab t2, st))
    ∧ (∀ ts,
        (embedSeq fit score store (get_text_embedding fit score store st0 t).2 ts).2
          = (get_text_embedding fit score store st0 t).2
        ∧ ∀ v ∈ (embedSeq fit score store (get_text_embedding fit score store st0 t).2 ts).1,
            v.length = (fit (loadExistingDocuments store ++ [t])).length) := by
  have hstep : get_text_embedding fit score store st0 t
      = (tfTransform score (fit (loadExistingDocuments store ++ [t])) t,
         { is_fitted := true, vocab := fit (loadExistingDocuments store ++ [t]) }) := by
    unfold get_text_embedding
    rw [h0]
    rfl
  refine ⟨?_, ?_, ?_, ?_, ?_⟩
  · rw [hstep]
  · rw [hstep]
    unfold tfTransform
    rw [List.length_map]
  · intro h
    rcases h with h | h <;> rw [h] <;> rfl
  · intro st t2 hf
    exact get_text_embedding_fitted fit score store st t2 hf
  · intro ts
    rw [hstep]
    rw [embedSeq_fitted fit score store _ rfl ts]
    refine ⟨rfl, ?_⟩
    intro v hv
    simp only [List.mem_map] at hv
    obtain ⟨x, -, hx⟩ := hv
    rw [← hx]
    unfold tfTransform
    rw [List.length_map]

/-- Witness for C9: a first call from the unfitted state, with the store
missing, fits on the seed corpus plus the embedded text. -/
theorem c9_tfidf_fit_once_witness :
    (get_text_embedding (fun l => l) (fun _ _ => (0 : Rat)) none
        { is_fitted := false, vocab := [] } "测试").2
      = { is_fitted := true, vocab := seedCorpus ++ ["测试"] } :=
  (c9_tfidf_fit_once (fun l => l) (fun _ _ => (0 : Rat)) none
    { is_fitted := false, vocab := [] } "测试" rfl).1

/-! ## Ingestion lemmas and C8 -/

/-- The per-chunk loop only ever appends: a failure keeps what was added
before it, and the additions are independent of the initial collection. -/
theorem addChunksLoop_append (embed : String → Option (List Rat)) (f : FileModel) :
    ∀ chunks i col, (addChunksLoop embed f chunks i col).1
      = col ++ (addChunksLoop embed f chunks i []).1 := by
  intro chunks
  induction chunks with
  | nil => intro i col; simp [addChunksLoop]
  | cons c rest ih =>
    intro i col
    unfold addChunksLoop
    split
    · exact ih (i + 1) col
    · split
      · simp
      · rename_i v _
        rw [List.nil_append, ih (i + 1) (col ++ [chunkEntry f c i v]),
            ih (i + 1) [chunkEntry f c i v], List.append_assoc]

/-- Per-file processing only appends that file's own contribution. -/
theorem processFile_append (embed : String → Option (List Rat)) (pypdf : Bool)
    (cs ov : Nat) (f : FileModel) (col : List Entry) :
    processFile embed pypdf cs ov f col = col ++ processFile embed pypdf cs ov f [] := by
  unfold processFile
  split
  · simp
  · split
    · simp
    · exact addChunksLoop_append embed f _ 0 col

/-- The batch fold distributes into per-file contributions. -/
theorem ingestFold_append (embed : String → Option (List Rat)) (pypdf : Bool)
    (cs ov : Nat) :
    ∀ (files : List FileModel) (col : List Entry),
      files.foldl (fun c f => processFile embed pypdf cs ov f c) col
      = col ++ flatAll (files.map (fun f => processFile embed pypdf cs ov f [])) := by
  intro files
  induction files with
  | nil => intro col; simp [flatAll]
  | cons f fs ih =>
    intro col
    rw [List.foldl_cons, List.map_cons]
    rw [ih (processFile embed pypdf cs ov f col), processFile_append embed pypdf cs ov f col]
    show (col ++ processFile embed pypdf cs ov f []) ++ _
        = col ++ (processFile embed pypdf cs ov f [] ++ _)
    rw [List.append_assoc]

/-- Every batch completes and returns `True`. -/
theorem ingestBatch_ok (env : IngestEnv) (files : List FileModel) :
    (ingestBatch env files).ok = true := by
  unfold ingestBatch
  split <;> rfl

/-- The batch iterates exactly over the resolved file list. -/
theorem ingestBatch_processed (env : IngestEnv) (files : List FileModel) :
    (ingestBatch env files).processed = files.map (fun f => f.path) := by
  cases files <;> rfl

/-- The collection after a non-empty batch: the initial contents followed
by every file's own contribution — so a per-file failure leaves the other
files' entries in place. -/
theorem ingestBatch_store_cons (env : IngestEnv) (f : FileModel) (fs : List FileModel) :
    (ingestBatch env (f :: fs)).store
      = some (colInit env ++ flatAll ((f :: fs).map (fun g =>
          processFile env.embed env.pypdf env.cs env.ov g []))) := by
  show some ((f :: fs).foldl (fun c g => processFile env.embed env.pypdf env.cs env.ov g c)
    (colInit env)) = _
  rw [ingestFold_append env.embed env.pypdf env.cs env.ov (f :: fs) (colInit env)]

/-- C8: explicit paths are processed exactly when they exist; without paths
the documents directory is scanned (created, returning `True`, when
absent); every modelled batch completes with `True` (a per-file extraction
or embedding failure only truncates that file's own contribution), and the
final collection is the initial one plus each file's independent
contribution, so one file's failure never aborts the remaining files. -/
theorem c8_ingest_pipeline (env : IngestEnv) :
    (∀ p, (offline_add_documents env p).ok = true)
    ∧ (∀ ps, (offline_add_documents env (some ps)).processed
          = (ps.filterMap id).map (fun f => f.path))
    ∧ (env.dirExists = false →
        offline_add_documents env none
          = { ok := true, store := env.store, dirCreated := true, processed := [] })
    ∧ (env.dirExists = true →
        (offline_add_documents env none).processed
          = (env.dirFiles.filter (fun f => allowedSuffix f.ext)).map (fun f => f.path))
    ∧ (∀ files, files ≠ [] →
        (ingestBatch env files).store
          = some (colInit env ++ flatAll (files.map (fun g =>
              processFile env.embed env.pypdf env.cs env.ov g [])))) := by
  refine ⟨?_, ?_, ?_, ?_, ?_⟩
  · intro p
    cases p with
    | none =>
      show (if env.dirExists = true then
          ingestBatch env (env.dirFiles.filter (fun f => allowedSuffix f.ext))
        else { ok := true, store := env.store, dirCreated := true, processed := [] }).ok = true
      split
      · exact ingestBatch_ok env _
      · rfl
    | some ps => exact ingestBatch_ok env (ps.filterMap id)
  · intro ps
    exact ingestBatch_processed env (ps.filterMap id)
  · intro h
    unfold offline_add_documents
    rw [h]
    rfl
  · intro h
    unfold offline_add_documents
    rw [h]
    exact ingestBatch_processed env (env.dirFiles.filter (fun f => allowedSuffix f.ext))
  · intro files hne
    cases files with
    | nil => exact absurd rfl hne
    | cons f fs => exact ingestBatch_store_cons env f fs

/-- Witness for C8: scanning a directory holding one text file. -/
theorem c8_ingest_pipeline_witness :
    (offline_add_documents envIngestW none).processed
      = (envIngestW.dirFiles.filter (fun f => allowedSuffix f.ext)).map (fun f => f.path) :=
  (c8_ingest_pipeline envIngestW).2.2.2.1 rfl

/-! ## Repair-policy lemmas and C1 -/

/-- The rebuild detector fires on every DimensionMismatch result, and on
every NotFound result when the collection counts zero entries while the
documents directory exists and holds at least one file. -/
theorem needsRebuild_fires (r : QueryResult) (docCount : Nat) (dirExists : Bool)
    (fileCount : Nat)
    (ht : isDimMismatchResult r
        ∨ (isNotFoundResult r ∧ docCount = 0 ∧ dirExists = true ∧ 0 < fileCount)) :
    (needsRebuild r docCount dirExists fileCount).1 = true := by
  unfold needsRebuild
  rcases ht with ⟨hs, hd⟩ | ⟨⟨hs, herr⟩, hdc, hde, hfc⟩
  · rw [hs, hd]
    rfl
  · rw [hs]
    by_cases hdm : r.dimension_mismatch = true
    · rw [hdm]
      rfl
    · have hdm' : r.dimension_mismatch = false := by
        cases h : r.dimension_mismatch
        · rfl
        · exact absurd h hdm
      rw [hdm', hdc, hde]
      rcases herr with h | h
      · rw [h]
        have hsub : (strContains (lowerStr ((some "没有找到相关文档").getD "")) "没有找到相关文档"
            || strContains (lowerStr ((some "没有找到相关文档").getD "")) "没有找到文档索引")
            = true := by decide
        rw [hsub, if_pos hfc]
        rfl
      · rw [h]
        have hsub : (strContains (lowerStr ((some "没有找到文档索引，请先上传文档").getD ""))
              "没有找到相关文档"
            || strContains (lowerStr ((some "没有找到文档索引，请先上传文档").getD ""))
              "没有找到文档索引")
            = true := by decide
        rw [hsub, if_pos hfc]
        rfl

/-- C1: whenever the first query result is DimensionMismatch, or NotFound
with a zero entry count while the on-disk documents directory holds at
least one file, and the store operations succeed, the handler performs the
repair cycle exactly once — clear, full re-ingestion, re-issuing the same
question once — and the final result carries a repair marker
(`rebuilt_index` on a successful retry, `rebuild_attempted` otherwise)
together with the trigger reason; on every input whatsoever, at most one
clear is ever performed and at most two queries are ever issued, so a
failing retried query never triggers a second repair. -/
theorem c1_repair_policy (q : String) (env : Env)
    (ht : isDimMismatchResult env.firstResult
        ∨ (isNotFoundResult env.firstResult ∧ env.docCount = 0 ∧ env.dirExists = true
           ∧ 0 < env.fileCount))
    (hc : env.clearOk = true) (ha : env.addOk = true) :
    (query_rag q env).2 = [ROp.queryOp q, ROp.clearOp, ROp.ingestOp, ROp.queryOp q]
    ∧ ((query_rag q env).1.rebuilt_index = true ∨ (query_rag q env).1.rebuild_attempted = true)
    ∧ ((query_rag q env).1.rebuild_reason).isSome = true
    ∧ (env.retryResult.success = true → (query_rag q env).1.rebuilt_index = true)
    ∧ (env.retryResult.success = false → (query_rag q env).1.rebuild_attempted = true)
    ∧ (∀ q2 env2, ((query_rag q2 env2).2.countP (fun o => o == ROp.clearOp)) ≤ 1
         ∧ ((query_rag q2 env2).2.countP isQueryOp) ≤ 2) := by
  have hneeds := needsRebuild_fires env.firstResult env.docCount env.dirExists env.fileCount ht
  have hmost : ∀ q2 env2, ((query_rag q2 env2).2.countP (fun o => o == ROp.clearOp)) ≤ 1
      ∧ ((query_rag q2 env2).2.countP isQueryOp) ≤ 2 := by
    intro q2 env2
    unfold query_rag
    by_cases h1 : (needsRebuild env2.firstResult env2.docCount env2.dirExists
        env2.fileCount).1 = true
    · rw [if_pos h1]
      by_cases h2 : env2.clearOk = true
      · rw [if_pos h2]
        by_cases h3 : env2.addOk = true
        · rw [if_pos h3]
          by_cases h4 : env2.retryResult.success = true
          · rw [if_pos h4]
            constructor <;> simp [List.countP_cons, List.countP_nil, isQueryOp]
          · rw [if_neg h4]
            constructor <;> simp [List.countP_cons, List.countP_nil, isQueryOp]
        · rw [if_neg h3]
          constructor <;> simp [List.countP_cons, List.countP_nil, isQueryOp]
      · rw [if_neg h2]
        constructor <;> simp [List.countP_cons, List.countP_nil, isQueryOp]
    · rw [if_neg h1]
      constructor <;> simp [List.countP_cons, List.countP_nil, isQueryOp]
  by_cases hr : env.retryResult.success = true
  · have hq : query_rag q env
        = ({ base := env.retryResult, rebuilt_index := true, rebuild_attempted := false,
             rebuild_reason :=
               some (needsRebuild env.firstResult env.docCount env.dirExists env.fileCount).2,
             rebuild_failed := none },
           [ROp.queryOp q, ROp.clearOp, ROp.ingestOp, ROp.queryOp q]) := by
      unfold query_rag
      rw [if_pos hneeds, if_pos hc, if_pos ha, if_pos hr]
    refine ⟨by rw [hq], by rw [hq]; exact Or.inl rfl, by rw [hq]; rfl, ?_, ?_, hmost⟩
    · intro _; rw [hq]
    · intro hr'; rw [hr'] at hr; cases hr
  · have hq : query_rag q env
        = ({ base := env.retryResult, rebuilt_index := false, rebuild_attempted := true,
             rebuild_reason :=
               some (needsRebuild env.firstResult env.docCount env.dirExists env.fileCount).2,
             rebuild_failed := none },
           [ROp.queryOp q, ROp.clearOp, ROp.ingestOp, ROp.queryOp q]) := by
      unfold query_rag
      rw [if_pos hneeds, if_pos hc, if_pos ha, if_neg hr]
    refine ⟨by rw [hq], by rw [hq]; exact Or.inr rfl, by rw [hq]; rfl, ?_, ?_, hmost⟩
    · intro hr'; exact absurd hr' hr
    · intro _; rw [hq]

/-- Witness for C1: a concrete dimension-mismatch first result with
successful store operations and a retried query that fails again. -/
theorem c1_repair_policy_witness :
    (query_rag "什么是RAG" envRepairW).2
      = [ROp.queryOp "什么是RAG", ROp.clearOp, ROp.ingestOp, ROp.queryOp "什么是RAG"] :=
  (c1_repair_policy "什么是RAG" envRepairW (Or.inl ⟨rfl, rfl⟩) rfl rfl).1
